import Mathlib

/-!
# Verification of the `calculate` expression evaluator

Shallow embedding of `src/handlers/math.ts` (the `calculate` tool of the
cloudflare-mcp-toolbox repository): a recursive-descent parser and evaluator
for arithmetic expressions over untrusted input strings.

JavaScript numbers are IEEE-754 doubles.  We model them exactly: a value is
either a rational number (`JSNum.fin`), an infinity (`JSNum.inf`, with a sign),
or `NaN` (`JSNum.nan`).  The arithmetic operations follow the ECMAScript
specification for the special values (`NaN` propagation, signed infinities,
division by zero, `Math.pow`'s special cases), and are exact on the rationals.
This agrees with the JavaScript evaluation on every computation appearing in
the theorems below (small integers and simple fractions, where a double
rounds nothing).  The model ignores the sign of zero (`-0`), and maps
`Math.pow` with a non-integer finite exponent and a positive base — a real
power that is in general irrational and hence not representable in `ℚ` —
to `nan`; no theorem below exercises either corner.
-/

/-- An exact rational, used as the model of a finite double.  The
representation is kept normalized by the smart constructor `Q.norm`: the
denominator is positive and coprime to the numerator's absolute value, so
equality of values is equality of representations (`DecidableEq`).  (A
bespoke structure rather than Mathlib's `ℚ` because the latter's
arithmetic is `@[irreducible]`, which blocks kernel evaluation in
`decide`.) -/
structure Q where
  num : ℤ
  den : ℕ
deriving DecidableEq, Repr

namespace Q

/-- The normalized rational `n / d` for a positive denominator `d`
(`d = 0` is mapped to `0`; no operation below produces it). -/
def norm (n : ℤ) (d : ℕ) : Q :=
  let g := n.natAbs.gcd d
  if g = 0 then ⟨0, 1⟩
  else ⟨n / (g : ℤ), d / g⟩

/-- The rational of an integer. -/
def ofInt (n : ℤ) : Q := ⟨n, 1⟩

/-- The rational of a natural number. -/
def ofNat (n : ℕ) : Q := ⟨(n : ℤ), 1⟩

/-- Exact addition. -/
def add (a b : Q) : Q := norm (a.num * b.den + b.num * a.den) (a.den * b.den)

/-- Exact subtraction. -/
def sub (a b : Q) : Q := norm (a.num * b.den - b.num * a.den) (a.den * b.den)

/-- Exact multiplication. -/
def mul (a b : Q) : Q := norm (a.num * b.num) (a.den * b.den)

/-- Exact division by a nonzero rational (`b.num = 0` is mapped to `0`;
the evaluator tests for a zero divisor before dividing). -/
def div (a b : Q) : Q :=
  if b.num < 0 then norm (-(a.num * b.den)) (a.den * b.num.natAbs)
  else norm (a.num * b.den) (a.den * b.num.natAbs)

/-- Negation (preserves normalization). -/
def neg (a : Q) : Q := ⟨-a.num, a.den⟩

/-- Exact power by a natural exponent: numerator and denominator powers of
coprime numbers stay coprime, so no renormalization is needed. -/
def powNat (a : Q) (n : ℕ) : Q := ⟨a.num ^ n, a.den ^ n⟩

/-- Exact power by an integer exponent of a nonzero rational (a negative
exponent inverts; the evaluator only exponentiates a nonzero base with a
negative exponent). -/
def zpow (a : Q) : ℤ → Q
  | Int.ofNat n => a.powNat n
  | Int.negSucc n =>
      let inv : Q :=
        if a.num < 0 then ⟨-(a.den : ℤ), a.num.natAbs⟩ else ⟨(a.den : ℤ), a.num.natAbs⟩
      inv.powNat (n + 1)

end Q

/-- A JavaScript number value: `NaN`, `Infinity`/`-Infinity` (the `Bool` is
`true` for the positive infinity), or a finite value modelled exactly as a
rational.  Sign tests on a finite value are expressed on the numerator
(`0 < q.num` is `0 < q` since the denominator is positive), and magnitude
tests against `1` compare numerator and denominator. -/
inductive JSNum where
  | nan : JSNum
  | inf : Bool → JSNum
  | fin : Q → JSNum
deriving DecidableEq, Repr

namespace JSNum

/-- JavaScript unary minus: `-NaN` is `NaN`, negating an infinity flips its
sign, negating a finite value negates it. -/
def neg : JSNum → JSNum
  | nan => nan
  | inf s => inf (!s)
  | fin q => fin q.neg

/-- JavaScript addition (`a + b`) on doubles, special cases per IEEE-754:
`NaN` propagates; opposite infinities give `NaN`; an infinity absorbs any
finite summand. -/
def add : JSNum → JSNum → JSNum
  | nan, _ => nan
  | _, nan => nan
  | inf s, inf t => if s = t then inf s else nan
  | inf s, fin _ => inf s
  | fin _, inf s => inf s
  | fin a, fin b => fin (a.add b)

/-- JavaScript subtraction (`a - b`): `NaN` propagates; `∞ - ∞` of equal
signs is `NaN`; otherwise an infinity dominates with the appropriate sign. -/
def sub : JSNum → JSNum → JSNum
  | nan, _ => nan
  | _, nan => nan
  | inf s, inf t => if s = t then nan else inf s
  | inf s, fin _ => inf s
  | fin _, inf s => inf (!s)
  | fin a, fin b => fin (a.sub b)

/-- JavaScript multiplication (`a * b`): `NaN` propagates; `∞ * 0` is `NaN`;
infinities multiply by the rule of signs. -/
def mul : JSNum → JSNum → JSNum
  | nan, _ => nan
  | _, nan => nan
  | inf s, inf t => inf (s = t)
  | inf s, fin q => if q.num = 0 then nan else inf (s = decide (0 < q.num))
  | fin q, inf s => if q.num = 0 then nan else inf (s = decide (0 < q.num))
  | fin a, fin b => fin (a.mul b)

/-- JavaScript division (`a / b`): `NaN` propagates; `∞ / ∞` is `NaN`;
a finite value divided by an infinity is `0`; a nonzero finite value divided
by zero is a signed infinity and `0 / 0` is `NaN` (the sign of zero is
ignored, see the file comment). -/
def div : JSNum → JSNum → JSNum
  | nan, _ => nan
  | _, nan => nan
  | inf _, inf _ => nan
  | inf s, fin q => inf (s = decide (0 ≤ q.num))
  | fin _, inf _ => fin (Q.ofNat 0)
  | fin a, fin b =>
      if b.num = 0 then (if a.num = 0 then nan else inf (decide (0 < a.num)))
      else fin (a.div b)

/-- `Math.pow(base, exponent)`, following the case analysis of the
ECMAScript `Number::exponentiate` operation (ignoring the sign of zero):
a `NaN` exponent gives `NaN`; an exponent of `0` gives `1` even when the
base is `NaN`; then a `NaN` base gives `NaN`; then the infinite-base,
zero-base and infinite-exponent cases; finally, for a finite nonzero base
and finite nonzero exponent, an integer exponent (`e.den = 1`) is computed
exactly with `Q.zpow`, a non-integer exponent gives `NaN` for a negative
base (as in JavaScript) and is not representable in this exact model for a
positive base (see the file comment; no theorem below reaches that case).
`Odd e.num` is coded `e.num % 2 = 1` (`Int.emod` is non-negative for the
positive modulus `2`). -/
def pow : JSNum → JSNum → JSNum
  | _, nan => nan
  | b, fin e =>
      if e.num = 0 then fin (Q.ofNat 1)
      else
        match b with
        | nan => nan
        | inf true => if 0 < e.num then inf true else fin (Q.ofNat 0)
        | inf false =>
            if 0 < e.num then
              (if e.den = 1 ∧ e.num % 2 = 1 then inf false else inf true)
            else
              fin (Q.ofNat 0)
        | fin a =>
            if a.num = 0 then
              (if 0 < e.num then fin (Q.ofNat 0) else inf true)
            else if e.den = 1 then fin (a.zpow e.num)
            else nan
  | b, inf s =>
      match b with
      | nan => nan
      | inf _ => if s then inf true else fin (Q.ofNat 0)
      | fin a =>
          if a.num.natAbs = 1 ∧ a.den = 1 then nan
          else if a.den < a.num.natAbs then
            (if s then inf true else fin (Q.ofNat 0))
          else if s then fin (Q.ofNat 0) else inf true

/-- `isFinite(x)`: `true` exactly on finite values (`isFinite(NaN)` is
`false`). -/
def isFinite : JSNum → Bool
  | fin _ => true
  | _ => false

end JSNum

/-- The set matched by the JavaScript regular-expression class `\s`
(ECMAScript `WhiteSpace ∪ LineTerminator`), which is also the set trimmed
by `String.prototype.trim`: tab, LF, VT, FF, CR, space, NBSP, and the
Unicode space separators together with LS, PS and ZWNBSP. -/
def jsWhitespace (c : Char) : Bool :=
  c.val = 0x9 ∨ c.val = 0xA ∨ c.val = 0xB ∨ c.val = 0xC ∨ c.val = 0xD ∨
  c.val = 0x20 ∨ c.val = 0xA0 ∨ c.val = 0x1680 ∨
  (0x2000 ≤ c.val ∧ c.val ≤ 0x200A) ∨
  c.val = 0x2028 ∨ c.val = 0x2029 ∨ c.val = 0x202F ∨ c.val = 0x205F ∨
  c.val = 0x3000 ∨ c.val = 0xFEFF

/-- `expression.trim()`: remove leading and trailing whitespace. -/
def jsTrim (s : List Char) : List Char :=
  ((s.dropWhile jsWhitespace).reverse.dropWhile jsWhitespace).reverse

/-- Membership in the character class of the sanitizer's regular expression
`/^[\d\s+\-*\/(). ^]+$/`: a digit, a whitespace character, or one of
`+ - * / ( ) . ^` (the space in the class is subsumed by `\s`). -/
def allowedChar (c : Char) : Bool :=
  c.isDigit ∨ jsWhitespace c ∨
  c = '+' ∨ c = '-' ∨ c = '*' ∨ c = '/' ∨ c = '(' ∨ c = ')' ∨ c = '.' ∨ c = '^'

/-- The character collected by `parseNumber`'s loop: the regular expression
`/[\d.]/`. -/
def numChar (c : Char) : Bool :=
  c.isDigit ∨ c = '.'

/-- The numeric value of a decimal digit character. -/
def digitVal (c : Char) : ℕ := c.toNat - 48

/-- Value of a list of digit characters read as a decimal natural number. -/
def digitsToNat (l : List Char) : ℕ :=
  l.foldl (fun acc c => 10 * acc + digitVal c) 0

/-- `parseFloat(num)` restricted to strings over digits and dots, which is
all `parseNumber` can collect: ECMAScript `parseFloat` parses the longest
prefix that is a valid decimal literal (digits, an optional dot, optional
further digits) and returns `NaN` when no such nonempty prefix exists
(so `""` and `"."` give `NaN`, while `".5"`, `"5."` and `"1.2.3"` give
`0.5`, `5` and `1.2`).  A literal with integer digits `n` and fractional
digits `f` of length `m` has the exact value `(n·10^m + f) / 10^m`. -/
def jsParseFloat (s : List Char) : JSNum :=
  let intPart := s.takeWhile Char.isDigit
  let rest := s.dropWhile Char.isDigit
  match rest with
  | '.' :: rest2 =>
      let fracPart := rest2.takeWhile Char.isDigit
      if intPart = [] ∧ fracPart = [] then JSNum.nan
      else
        JSNum.fin (Q.norm
          ((digitsToNat intPart * 10 ^ fracPart.length + digitsToNat fracPart : ℕ) : ℤ)
          (10 ^ fracPart.length))
  | _ =>
      if intPart = [] then JSNum.nan
      else JSNum.fin (Q.ofNat (digitsToNat intPart))

/-- `parseNumber()`: consume the maximal run of characters matching
`/[\d.]/` from the cursor and apply `parseFloat` to it.  Returns the value
and the remaining input (the JavaScript code advances a shared cursor; here
the unread suffix is returned explicitly). -/
def parseNumber (s : List Char) : JSNum × List Char :=
  (jsParseFloat (s.takeWhile numChar), s.dropWhile numChar)

mutual

/-- `parseFactor()`: an opening parenthesis recurses into
`parseExpression` and then consumes ONE character unconditionally (the
JavaScript code calls `next()` without checking that the character is `)` —
at the end of input `next()` returns `''` and consumes nothing, which
`List.drop 1` on `[]` also models); a `-` recurses into `parseFactor` and
negates; otherwise `parseNumber`.  The `fuel` argument makes the mutual
recursion structurally terminating; every entry point below supplies more
fuel than the computation can consume, and exhausted fuel yields `NaN`
(which the caller's finiteness check rejects). -/
def parseFactor : ℕ → List Char → JSNum × List Char
  | 0, s => (JSNum.nan, s)
  | fuel + 1, s =>
      match s with
      | '(' :: rest =>
          let vr := parseExpression fuel rest
          (vr.1, vr.2.drop 1)
      | '-' :: rest =>
          let vr := parseFactor fuel rest
          (vr.1.neg, vr.2)
      | _ => parseNumber s

/-- `parsePower()`: a factor followed by the `while (peek() === '^')`
loop. -/
def parsePower : ℕ → List Char → JSNum × List Char
  | 0, s => (JSNum.nan, s)
  | fuel + 1, s =>
      let vr := parseFactor fuel s
      parsePowerLoop fuel vr.1 vr.2

/-- The `while (peek() === '^')` loop of `parsePower`, folding
`left = Math.pow(left, parseFactor())` left to right. -/
def parsePowerLoop : ℕ → JSNum → List Char → JSNum × List Char
  | 0, left, s => (left, s)
  | fuel + 1, left, s =>
      match s with
      | '^' :: rest =>
          let vr := parseFactor fuel rest
          parsePowerLoop fuel (left.pow vr.1) vr.2
      | _ => (left, s)

/-- `parseTerm()`: a power followed by the
`while (peek() === '*' || peek() === '/')` loop. -/
def parseTerm : ℕ → List Char → JSNum × List Char
  | 0, s => (JSNum.nan, s)
  | fuel + 1, s =>
      let vr := parsePower fuel s
      parseTermLoop fuel vr.1 vr.2

/-- The multiplicative loop of `parseTerm`, folding `*` and `/` left to
right. -/
def parseTermLoop : ℕ → JSNum → List Char → JSNum × List Char
  | 0, left, s => (left, s)
  | fuel + 1, left, s =>
      match s with
      | '*' :: rest =>
          let vr := parsePower fuel rest
          parseTermLoop fuel (left.mul vr.1) vr.2
      | '/' :: rest =>
          let vr := parsePower fuel rest
          parseTermLoop fuel (left.div vr.1) vr.2
      | _ => (left, s)

/-- `parseExpression()`: a term followed by the
`while (peek() === '+' || peek() === '-')` loop. -/
def parseExpression : ℕ → List Char → JSNum × List Char
  | 0, s => (JSNum.nan, s)
  | fuel + 1, s =>
      let vr := parseTerm fuel s
      parseExpressionLoop fuel vr.1 vr.2

/-- The additive loop of `parseExpression`, folding `+` and `-` left to
right. -/
def parseExpressionLoop : ℕ → JSNum → List Char → JSNum × List Char
  | 0, left, s => (left, s)
  | fuel + 1, left, s =>
      match s with
      | '+' :: rest =>
          let vr := parseTerm fuel rest
          parseExpressionLoop fuel (left.add vr.1) vr.2
      | '-' :: rest =>
          let vr := parseTerm fuel rest
          parseExpressionLoop fuel (left.sub vr.1) vr.2
      | _ => (left, s)

end

/-- `evaluateExpression(expr)`: strip every whitespace character
(`expr.replace(/\s/g, '')`) and run the top-level `parseExpression` on the
result; the value is returned and the final cursor position is never
inspected.  The fuel `10 * (length + 1)` is ample: every parsing step
either consumes a character or descends through the four tiers, so the
computation can never exhaust it. -/
def evaluateExpression (chars : List Char) : JSNum :=
  let str := chars.filter (fun c => !jsWhitespace c)
  (parseExpression (10 * (str.length + 1)) str).1

/-- The character of a decimal digit value. -/
def digitToChar (d : ℕ) : Char := Char.ofNat (48 + d)

/-- Decimal digit characters of a natural number, most significant first
(`0` gives `"0"`).  The fuel `n + 1` bounds the number of digits. -/
def natDigitsAux : ℕ → ℕ → List Char → List Char
  | 0, _, acc => acc
  | fuel + 1, n, acc =>
      if n < 10 then digitToChar n :: acc
      else natDigitsAux fuel (n / 10) (digitToChar (n % 10) :: acc)

/-- Decimal string of a natural number. -/
def natToStr (n : ℕ) : String := String.mk (natDigitsAux (n + 1) n [])

/-- Decimal digits after the point of the fraction `rem / den` with
`0 < rem < den`, produced by long division and cut off by the fuel;
trailing zeros never arise because the recursion stops at remainder `0`. -/
def fracDigitsAux : ℕ → ℕ → ℕ → List Char
  | 0, _, _ => []
  | fuel + 1, rem, den =>
      if rem = 0 then []
      else digitToChar (10 * rem / den) :: fracDigitsAux fuel (10 * rem % den) den

/-- `result.toString()` on a JavaScript number.  An integral value prints
with no decimal point and a leading `-` when negative; a non-integral value
prints its decimal expansion (exact for the terminating decimals that a
double represents exactly and that this development produces; for other
rationals the cut-off at 30 digits is this model's idealization of the
double's shortest round-trip representation).  The non-finite spellings
are those of JavaScript, though `calculate` can never return them. -/
def jsToString : JSNum → String
  | JSNum.nan => "NaN"
  | JSNum.inf true => "Infinity"
  | JSNum.inf false => "-Infinity"
  | JSNum.fin q =>
      let sign := if q.num < 0 then "-" else ""
      let ip := natToStr (q.num.natAbs / q.den)
      let rem := q.num.natAbs % q.den
      if rem = 0 then sign ++ ip
      else sign ++ ip ++ "." ++ String.mk (fracDigitsAux 30 rem q.den)

/-- The two failure modes of `calculate`, named by the messages the
JavaScript code throws: the sanitizer's 'Expression contains invalid
characters …' rejection, and the post-evaluation 'Result is not a valid
number' rejection of a non-finite result (the `catch` block rewraps the
message but preserves which of the two occurred). -/
inductive CalcError where
  | invalidCharacter : CalcError
  | notValidNumber : CalcError
deriving DecidableEq, Repr

/-- `calculate({ expression })`: trim the input, reject it unless the
trimmed string is nonempty and every character is in the allow-list
(`/^[\d\s+\-*\/(). ^]+$/`), evaluate, reject a non-finite result, and
return the decimal string of the value.  (The JavaScript
`typeof result !== 'number'` test is vacuous: `evaluateExpression` always
returns a number.) -/
def calculate (expression : String) : Except CalcError String :=
  let expr := jsTrim expression.data
  if expr ≠ [] ∧ expr.all allowedChar = true then
    let result := evaluateExpression expr
    if result.isFinite then Except.ok (jsToString result)
    else Except.error CalcError.notValidNumber
  else Except.error CalcError.invalidCharacter

deriving instance DecidableEq for Except

/-- Negation is involutive on the exact rationals. -/
theorem Q.neg_neg_self (q : Q) : q.neg.neg = q := by
  cases q
  simp [Q.neg]

/-- Unary minus is involutive on JavaScript numbers. -/
theorem JSNum.neg_neg_cancel (v : JSNum) : v.neg.neg = v := by
  cases v <;> simp [JSNum.neg, Q.neg_neg_self]

/-- An element that a `dropWhile` predicate rejects survives the
`dropWhile`. -/
theorem mem_dropWhile_of_neg {p : Char → Bool} {c : Char} (hc : p c = false) :
    ∀ (l : List Char), c ∈ l → c ∈ l.dropWhile p := by
  intro l
  induction l with
  | nil => intro h; exact absurd h (List.not_mem_nil c)
  | cons a t ih =>
      intro h
      rw [List.dropWhile_cons]
      rcases List.mem_cons.mp h with rfl | ht
      · rw [hc]; simp
      · by_cases hpa : p a = true
        · rw [if_pos hpa]; exact ih ht
        · rw [if_neg hpa]; exact List.mem_cons_of_mem a ht

/-- A non-whitespace character of the input survives `trim()`. -/
theorem mem_jsTrim {c : Char} {s : List Char} (hc : jsWhitespace c = false)
    (h : c ∈ s) : c ∈ jsTrim s := by
  unfold jsTrim
  rw [List.mem_reverse]
  apply mem_dropWhile_of_neg hc
  rw [List.mem_reverse]
  exact mem_dropWhile_of_neg hc _ h

/-- Every character of the trimmed string is a character of the input. -/
theorem mem_of_mem_jsTrim {c : Char} {s : List Char} (h : c ∈ jsTrim s) :
    c ∈ s := by
  unfold jsTrim at h
  rw [List.mem_reverse] at h
  have h2 := (List.dropWhile_sublist _).subset h
  rw [List.mem_reverse] at h2
  exact (List.dropWhile_sublist _).subset h2

/-- `trim()` of an all-whitespace string is empty. -/
theorem jsTrim_eq_nil {s : List Char} (h : ∀ c ∈ s, jsWhitespace c = true) :
    jsTrim s = [] := by
  unfold jsTrim
  rw [List.dropWhile_eq_nil_iff.mpr h]
  rfl

/-- A whitespace character is in the sanitizer's allow-list (the regular
expression class contains `\s`). -/
theorem allowedChar_of_ws {c : Char} (h : jsWhitespace c = true) :
    allowedChar c = true := by
  unfold allowedChar
  simp only [decide_eq_true_eq]
  exact Or.inr (Or.inl h)

/-- `calculate` rejects with the sanitizer error exactly when the trimmed
input is empty or contains a character outside the allow-list. -/
theorem calculate_invalid_of_bad {s : String}
    (h : ¬(jsTrim s.data ≠ [] ∧ (jsTrim s.data).all allowedChar = true)) :
    calculate s = Except.error CalcError.invalidCharacter := by
  unfold calculate
  exact if_neg h

/-- When the trimmed input passes the sanitizer, `calculate` evaluates it
and returns the result string or the finiteness error. -/
theorem calculate_of_sanitized {s : String}
    (h1 : jsTrim s.data ≠ []) (h2 : (jsTrim s.data).all allowedChar = true) :
    calculate s =
      (if (evaluateExpression (jsTrim s.data)).isFinite then
        Except.ok (jsToString (evaluateExpression (jsTrim s.data)))
      else Except.error CalcError.notValidNumber) := by
  unfold calculate
  exact if_pos ⟨h1, h2⟩

/-- C1, counterexample: `calculate "(2 + 3"` does not fail — the claimed
`UnbalancedParentheses` failure does not exist in the code; the unmatched
opening parenthesis is tolerated and the call returns the numeric result
`"5"`. -/
theorem C1_unbalanced_open_returns_result : calculate "(2 + 3" = Except.ok "5" := by
  decide

/-- C1, amended: unbalanced parentheses are not detected.  `parseFactor`
consumes the character after a parenthesized group unconditionally (at end
of input it consumes nothing), so `"(2 + 3"` — and even `"((2+3"` —
evaluates to `"5"`; a stray `')'` with none open merely terminates the
top-level parse and is ignored as trailing input, so `"2 + 3)"` also
returns `"5"`.  No `UnbalancedParentheses` error exists in the code. -/
theorem C1_unbalanced_parens_tolerated :
    calculate "(2 + 3" = Except.ok "5" ∧
    calculate "2 + 3)" = Except.ok "5" ∧
    calculate "((2+3" = Except.ok "5" := by
  decide

/-- C2, counterexample: a tab character is NOT rejected by the sanitizer —
the regular expression class contains `\s`, which matches every whitespace
character, not only the space: `calculate "2\t+3"` returns `"5"` instead
of failing with the invalid-character error. -/
theorem C2_tab_not_rejected : calculate "2\t+3" = Except.ok "5" := by
  decide

/-- C2, amended: the sanitizer's allow-list is `{0-9, '.', '+', '-', '*',
'/', '^', '(', ')'}` together with every whitespace character (the class
contains `\s`, so tabs and newlines are allowed, not only the space).
Every input containing a character outside that broader set fails with the
invalid-character error before any parsing; every input all of whose
characters are in the set and which contains at least one non-whitespace
character passes the sanitizer. -/
theorem C2_sanitizer_allowlist :
    (∀ s : String, (∃ c ∈ s.data, allowedChar c = false) →
      calculate s = Except.error CalcError.invalidCharacter) ∧
    (∀ s : String, (∀ c ∈ s.data, allowedChar c = true) →
      (∃ c ∈ s.data, jsWhitespace c = false) →
      calculate s ≠ Except.error CalcError.invalidCharacter) := by
  constructor
  · rintro s ⟨c, hcs, hc⟩
    apply calculate_invalid_of_bad
    rintro ⟨-, hall⟩
    have hcw : jsWhitespace c = false := by
      by_contra hw
      rw [Bool.not_eq_false] at hw
      rw [allowedChar_of_ws hw] at hc
      exact Bool.true_eq_false.mp hc
    have hmem := mem_jsTrim hcw hcs
    have hct := List.all_eq_true.mp hall c hmem
    rw [hc] at hct
    exact Bool.false_ne_true hct
  · rintro s hall ⟨c, hcs, hcw⟩
    have hmem := mem_jsTrim hcw hcs
    have h1 : jsTrim s.data ≠ [] := by
      intro hnil
      rw [hnil] at hmem
      exact absurd hmem (List.not_mem_nil c)
    have h2 : (jsTrim s.data).all allowedChar = true :=
      List.all_eq_true.mpr fun x hx => hall x (mem_of_mem_jsTrim hx)
    rw [calculate_of_sanitized h1 h2]
    by_cases hf : (evaluateExpression (jsTrim s.data)).isFinite = true
    · rw [if_pos hf]
      intro h
      exact Except.noConfusion h
    · rw [if_neg hf]
      intro h
      injection h with h3
      exact CalcError.noConfusion h3

/-- Witness for C2's amended theorem: `"2 + alert(1)"` contains the letter
`a`, which is outside the allow-list, so it is rejected; `"2\t+ 3"`
contains only allowed characters and the non-whitespace `2`, so the
sanitizer passes it. -/
theorem C2_sanitizer_allowlist_witness :
    calculate "2 + alert(1)" = Except.error CalcError.invalidCharacter ∧
    calculate "2\t+ 3" ≠ Except.error CalcError.invalidCharacter :=
  ⟨C2_sanitizer_allowlist.1 "2 + alert(1)" ⟨'a', by decide, by decide⟩,
   C2_sanitizer_allowlist.2 "2\t+ 3" (by decide) ⟨'2', by decide, by decide⟩⟩

/-- C10: the empty string and every all-whitespace string are rejected by
the sanitizer: after `trim()` the string is empty, and the anchored
pattern `/^[...]+$/` requires at least one character, so `calculate`
fails with the invalid-character error (there is no
`UnexpectedEndOfInput` path). -/
theorem C10_empty_input_rejected :
    calculate "" = Except.error CalcError.invalidCharacter ∧
    calculate "   " = Except.error CalcError.invalidCharacter ∧
    ∀ s : String, (∀ c ∈ s.data, jsWhitespace c = true) →
      calculate s = Except.error CalcError.invalidCharacter := by
  refine ⟨by decide, by decide, ?_⟩
  intro s h
  apply calculate_invalid_of_bad
  rintro ⟨hne, -⟩
  exact hne (jsTrim_eq_nil h)

/-- Witness for C10 at a concrete all-whitespace input (tab, space,
newline). -/
theorem C10_empty_input_rejected_witness :
    calculate "\t \n" = Except.error CalcError.invalidCharacter :=
  C10_empty_input_rejected.2.2 "\t \n" (by decide)

/-- C3, counterexample: the claim quantifies over every expression whose
evaluation divides by zero, but the code checks only the final value:
in `"4/(2/0)"` the division `2/0` produces `Infinity`, the outer division
`4/Infinity` collapses it to `0`, and the call succeeds with `"0"` instead
of failing with the non-finite-result error. -/
theorem C3_div_zero_can_wash_out : calculate "4/(2/0)" = Except.ok "0" := by
  decide

/-- C3, amended: a division by zero that leaves the final value non-finite
fails with the post-hoc finiteness error: `"5 / 0"` evaluates to
`Infinity` (no special-cased early error — evaluation completes) and the
finiteness check then rejects it with the 'Result is not a valid number'
error; and `calculate` never returns a string unless the evaluated result
is finite.  (A division by zero inside a sub-expression whose `Infinity`
is consumed again, leaving a finite final value, succeeds — see the
counterexample.) -/
theorem C3_div_by_zero_postcheck :
    evaluateExpression (jsTrim ("5 / 0").data) = JSNum.inf true ∧
    calculate "5 / 0" = Except.error CalcError.notValidNumber ∧
    (∀ s r : String, calculate s = Except.ok r →
      (evaluateExpression (jsTrim s.data)).isFinite = true) := by
  refine ⟨by decide, by decide, ?_⟩
  intro s r h
  simp only [calculate] at h
  split at h
  · split at h
    · assumption
    · exact Except.noConfusion h
  · exact Except.noConfusion h

/-- Witness for C3's amended theorem: `"1+1"` succeeds, so its evaluated
result is finite. -/
theorem C3_div_by_zero_postcheck_witness :
    (evaluateExpression (jsTrim ("1+1").data)).isFinite = true :=
  C3_div_by_zero_postcheck.2.2 "1+1" "2" (by decide)

/-- C6, counterexample: an intermediate `Infinity` does not make
`calculate` fail when the final value is finite: `"1/(1/0)"` has the
non-finite intermediate `1/0` yet returns `"0"`. -/
theorem C6_intermediate_nonfinite_ignored : calculate "1/(1/0)" = Except.ok "0" := by
  decide

/-- C6, amended: only the FINAL value is checked for finiteness.  Whenever
the evaluated value of a sanitizer-accepted input is non-finite, the call
fails with the 'Result is not a valid number' error regardless of which
sub-operation produced the non-finite value (`"1/0 - 1/0"`, whose `NaN`
comes from `∞ - ∞`, fails); but an intermediate `Infinity` or `NaN` that
a later operation collapses to a finite value is not detected:
`"1/(1/0)"` returns `"0"`. -/
theorem C6_only_final_value_checked :
    calculate "1/(1/0)" = Except.ok "0" ∧
    calculate "1/0 - 1/0" = Except.error CalcError.notValidNumber ∧
    (∀ s : String, jsTrim s.data ≠ [] → (jsTrim s.data).all allowedChar = true →
      (evaluateExpression (jsTrim s.data)).isFinite = false →
      calculate s = Except.error CalcError.notValidNumber) := by
  refine ⟨by decide, by decide, ?_⟩
  intro s h1 h2 hf
  rw [calculate_of_sanitized h1 h2, if_neg (by simp [hf])]

/-- Witness for C6's amended theorem at `"1/0"`, whose value is
`Infinity`. -/
theorem C6_only_final_value_checked_witness :
    calculate "1/0" = Except.error CalcError.notValidNumber :=
  C6_only_final_value_checked.2.2 "1/0" (by decide) (by decide) (by decide)

/-- C7, counterexample: the claim quantifies over every sanitizer-accepted
input with a digitless numeric-literal position, but `Math.pow(x, 0)` is
`1` even for `NaN` `x`, so the `NaN` produced by the malformed literal in
`"(*3)^0"` (an operator where a number was expected) is erased by the
exponent `0` and the call returns `"1"` instead of failing. -/
theorem C7_malformed_erased_by_pow_zero : calculate "(*3)^0" = Except.ok "1" := by
  decide

/-- C7, amended: a numeric-literal position with no valid digits makes
`parseFloat` return `NaN` (shown for the empty collected literal and the
bare `"."`); there is no distinct `MalformedNumber` error — the `NaN`
ordinarily propagates to the final value and the call fails with the same
post-hoc 'Result is not a valid number' error as any non-finite result:
a bare `"."` and an operator where a number was expected (`"2+*3"`) both
fail with that error (though `^0` can erase the `NaN` — see the
counterexample). -/
theorem C7_malformed_number_postcheck :
    calculate "." = Except.error CalcError.notValidNumber ∧
    calculate "2+*3" = Except.error CalcError.notValidNumber ∧
    jsParseFloat ['.'] = JSNum.nan ∧
    jsParseFloat [] = JSNum.nan := by
  decide

/-- Two leading unary minus signs: `parseFactor` consumes a `'-'` and
negates recursively, so a doubled sign cancels exactly (the fuel offset
matches the two recursive steps). -/
theorem parseFactor_double_neg (fuel : ℕ) (s : List Char) :
    parseFactor (fuel + 2) ('-' :: '-' :: s) = parseFactor fuel s := by
  show (((parseFactor fuel s).1.neg).neg, (parseFactor fuel s).2) = parseFactor fuel s
  rw [JSNum.neg_neg_cancel]

/-- Any even number of leading minus signs in front of a factor leaves its
value and the rest of the input unchanged. -/
theorem parseFactor_even_neg :
    ∀ (k fuel : ℕ) (s : List Char),
      parseFactor (2 * k + fuel) (List.replicate (2 * k) '-' ++ s) =
        parseFactor fuel s := by
  intro k
  induction k with
  | zero => intro fuel s; simp
  | succ k ih =>
      intro fuel s
      have h2 : 2 * (k + 1) = 2 * k + 1 + 1 := by omega
      have hfuel : 2 * (k + 1) + fuel = 2 * k + fuel + 2 := by omega
      rw [h2, List.replicate_succ, List.replicate_succ]
      have hrep : 2 * k + 1 + 1 + fuel = 2 * k + fuel + 2 := by omega
      rw [hrep, List.cons_append, List.cons_append, parseFactor_double_neg]
      exact ih fuel s

/-- C8: unary minus binds at the innermost (factor) tier — tighter than
every binary operator, including `^` (`"-2^2"` is `(-2)^2 = 4`) — and may
be chained: `"--5"` is `5`, `"-5 + 3"` is `-2`, and in general an even
number of leading minus signs before a factor leaves its value
unchanged. -/
theorem C8_unary_minus_chains :
    calculate "--5" = Except.ok "5" ∧
    calculate "-5 + 3" = Except.ok "-2" ∧
    calculate "-2^2" = Except.ok "4" ∧
    (∀ (k fuel : ℕ) (s : List Char),
      parseFactor (2 * k + fuel) (List.replicate (2 * k) '-' ++ s) =
        parseFactor fuel s) :=
  ⟨by decide, by decide, by decide, parseFactor_even_neg⟩

/-- C9: trailing unconsumed characters are silently ignored.  On
`"2+3)"` the top-level parse (run with exactly the fuel `calculate`
supplies) returns the value `5` of the parsed prefix with the `')'` left
unconsumed, and `calculate "2 + 3)"` succeeds with `"5"`; in general, for
any sanitizer-accepted input whose parsed value is finite, `calculate`
returns that value's string — the parser's final position is never
inspected, so leftover input can never cause a failure. -/
theorem C9_trailing_input_ignored :
    parseExpression 50 ("2+3)".data) = (JSNum.fin (Q.ofNat 5), [')']) ∧
    calculate "2 + 3)" = Except.ok "5" ∧
    (∀ s : String, jsTrim s.data ≠ [] → (jsTrim s.data).all allowedChar = true →
      (evaluateExpression (jsTrim s.data)).isFinite = true →
      calculate s = Except.ok (jsToString (evaluateExpression (jsTrim s.data)))) := by
  refine ⟨by decide, by decide, ?_⟩
  intro s h1 h2 hf
  rw [calculate_of_sanitized h1 h2]
  exact if_pos hf

/-- Witness for C9's general conjunct at `"2 + 3)"` itself. -/
theorem C9_trailing_input_ignored_witness :
    calculate "2 + 3)" =
      Except.ok (jsToString (evaluateExpression (jsTrim ("2 + 3)").data))) :=
  C9_trailing_input_ignored.2.2 "2 + 3)" (by decide) (by decide) (by decide)

set_option maxHeartbeats 3200000 in
/-- C4: standard operator precedence with `*` and `/` binding tighter than
`+` and `-` and parentheses overriding it: `"2 + 2 * 3"` is `8` and
`"(2 + 2) * 3"` is `12`; `+ -` and `* /` are left-associative
(`"10 - 3 - 2"` is `5`, not `9`; `"8 / 4 / 2"` is `1`, not `4`); `^` binds
tighter than `*` (`"2 * 3 ^ 2"` is `18`); and for all single digits
`a b c`, `"a+b*c"` evaluates to `a + (b·c)` and `"a-b-c"` to
`(a - b) - c`. -/
theorem C4_operator_precedence :
    calculate "2 + 2 * 3" = Except.ok "8" ∧
    calculate "(2 + 2) * 3" = Except.ok "12" ∧
    calculate "10 - 3 - 2" = Except.ok "5" ∧
    calculate "8 / 4 / 2" = Except.ok "1" ∧
    calculate "2 * 3 ^ 2" = Except.ok "18" ∧
    (∀ a b c : Fin 10,
      calculate (String.mk [digitToChar a.val, '+', digitToChar b.val, '*',
          digitToChar c.val]) =
        Except.ok (jsToString (JSNum.fin (Q.ofNat (a.val + b.val * c.val))))) ∧
    (∀ a b c : Fin 10,
      calculate (String.mk [digitToChar a.val, '-', digitToChar b.val, '-',
          digitToChar c.val]) =
        Except.ok (jsToString (JSNum.fin (Q.ofInt ((a.val : ℤ) - b.val - c.val))))) := by
  decide

set_option maxHeartbeats 3200000 in
/-- C5: `^` is applied left to right at its tier, so a chain `a^b^c`
evaluates as `(a^b)^c`: `"2^3^2"` is `64` (namely `8^2`), not the
right-associative `512`; and for all single digits `a b c`, `"a^b^c"`
evaluates to `pow (pow a b) c`. -/
theorem C5_power_left_assoc :
    calculate "2^3^2" = Except.ok "64" ∧
    calculate "2^3^2" ≠ Except.ok "512" ∧
    (∀ a b c : Fin 10,
      calculate (String.mk [digitToChar a.val, '^', digitToChar b.val, '^',
          digitToChar c.val]) =
        Except.ok (jsToString (((JSNum.fin (Q.ofNat a.val)).pow
          (JSNum.fin (Q.ofNat b.val))).pow (JSNum.fin (Q.ofNat c.val))))) := by
  decide

